import Mathlib

/-!
Verification of the orca-quote script (src/js/src/main.ts).

The program is a single-shot script: it reads seven environment variables at
module load, then runs an async IIFE that builds an RPC connection, derives a
pool address, fetches the pool state, computes a swap direction and tick-array
addresses, requests a swap quote, and prints the results.  The final
.catch(console.error) handles any rejection of the async flow by printing it,
after which the Node process exits normally (exit code 0); only a synchronous
exception at module load (configuration parsing) terminates the process with a
non-zero exit code.

External SDK operations (address parsing, pool-address derivation, swap
direction, tick-array enumeration, the quote engine, the RPC connection) are
not part of this repository; they are modelled from the specification of their
contracts, each marked with a doc comment starting with the words Modelled
from the spec.  Network-dependent operations (pool fetch, quote computation)
are oracles supplied as inputs to the run function.
-/

/-- An on-chain address.  A base58 string decoding to exactly 32 bytes is
determined by the natural number those bytes encode in big-endian form, so the
decoded value represents the address. -/
structure Address where
  value : Nat
deriving DecidableEq, Repr

/-- The base58 alphabet used by address encoding (no 0, O, I, l). -/
def base58Alphabet : List Char :=
  ("123456789ABCDEFGHJKLMNPQRSTUVWXYZabcdefghijkmnopqrstuvwxyz").toList

/-- Index of a character in a list, or none when absent. -/
def charIndex (c : Char) : List Char → Option Nat
  | [] => none
  | d :: ds => if d = c then some 0 else (charIndex c ds).map (· + 1)

/-- Value of one base58 digit, or none for a character outside the alphabet. -/
def base58DigitValue (c : Char) : Option Nat :=
  charIndex c base58Alphabet

/-- Decode a base58 string into (number of leading one-characters, value of
the whole string read as a base58 numeral); none if any character is outside
the alphabet.  The decoded byte string is one zero byte per leading
one-character followed by the minimal big-endian bytes of the value. -/
def base58Decode (s : String) : Option (Nat × Nat) :=
  let cs := s.toList
  if cs.all (fun c => (base58DigitValue c).isSome) then
    some ((cs.takeWhile (fun c => c = '1')).length,
          cs.foldl (fun acc c => acc * 58 + (base58DigitValue c).getD 0) 0)
  else none

/-- Minimal number of bytes needed to represent a natural number, with enough
fuel to exhaust the repeated division by 256. -/
def byteLengthAux : Nat → Nat → Nat
  | 0, _ => 0
  | fuel + 1, n => if n = 0 then 0 else byteLengthAux fuel (n / 256) + 1

/-- Minimal number of bytes needed to represent a natural number. -/
def byteLength (n : Nat) : Nat :=
  byteLengthAux n n

/-- A string is a syntactically valid address when it is base58 and decodes to
exactly 32 bytes. -/
def isValidAddressString (s : String) : Bool :=
  match base58Decode s with
  | none => false
  | some (leading, v) => leading + byteLength v = 32

/-- Modelled from the spec: the address constructor used at configuration
intake (new PublicKey).  It throws when the input is absent (the env read with
a non-null assertion yields undefined) or is not a syntactically valid
address. -/
def parsePublicKey (input : Option String) : Except String Address :=
  match input with
  | none => Except.error ("undefined is not a valid public key input")
  | some s =>
    match base58Decode s with
    | none => Except.error ("Non-base58 character")
    | some (leading, v) =>
      if leading + byteLength v = 32 then Except.ok (Address.mk v)
      else Except.error ("Invalid public key input")

/-- Characters removed by the whitespace stripping of the big-number
constructor. -/
def isSpaceChar (c : Char) : Bool :=
  c = ' ' || c = '\t' || c = '\n' || c = '\r'

/-- Digits of a decimal string folded into a natural number. -/
def digitsToNat (cs : List Char) : Nat :=
  cs.foldl (fun a c => a * 10 + (c.toNat - 48)) 0

/-- A string is numeric for the big-number constructor when, after stripping
whitespace, it is an optional minus sign followed by decimal digits only. -/
def isNumericString (s : String) : Bool :=
  match s.toList.filter (fun c => !isSpaceChar c) with
  | [] => true
  | c :: rest => if c = '-' then rest.all Char.isDigit else (c :: rest).all Char.isDigit

/-- Modelled from the spec: the big-number constructor used at configuration
intake (new BN).  It throws when the input is absent (reading the toString
method of undefined) or contains a character that is not a decimal digit; an
all-digit string (possibly signed, whitespace stripped) parses exactly. -/
def parseBN (input : Option String) : Except String Int :=
  match input with
  | none => Except.error ("Cannot read properties of undefined")
  | some s =>
    match s.toList.filter (fun c => !isSpaceChar c) with
    | [] => Except.ok 0
    | c :: rest =>
      if c = '-' then
        if rest.all Char.isDigit then Except.ok (-(digitsToNat rest : Int))
        else Except.error ("Invalid character")
      else
        if (c :: rest).all Char.isDigit then Except.ok ((digitsToNat (c :: rest) : Int))
        else Except.error ("Invalid character")

/-- The process environment: the seven variables the script reads.  A field is
none when the variable is absent. -/
structure Env where
  whirlpoolProgramId : Option String
  whirlpoolConfig : Option String
  inputToken : Option String
  outputToken : Option String
  httpUrl : Option String
  amount : Option String
  slippage : Option String
deriving DecidableEq, Repr

/-- The module-level constants of main.ts after the module load phase
succeeds.  HTTP_URL is read with a non-null assertion but never validated at
module load, so it stays an optional string. -/
structure Config where
  programId : Address
  whirlpoolConfig : Address
  inputToken : Address
  outputToken : Address
  httpUrl : Option String
  amount : Int
  slippage : Int
deriving DecidableEq, Repr

/-- The module load phase of main.ts: the seven const initializers run in
source order; the first throwing constructor aborts the load.  HTTP_URL is a
plain read that cannot throw. -/
def loadConfig (env : Env) : Except String Config :=
  match parsePublicKey env.whirlpoolProgramId with
  | Except.error e => Except.error e
  | Except.ok pid =>
    match parsePublicKey env.whirlpoolConfig with
    | Except.error e => Except.error e
    | Except.ok cfg =>
      match parsePublicKey env.inputToken with
      | Except.error e => Except.error e
      | Except.ok inTok =>
        match parsePublicKey env.outputToken with
        | Except.error e => Except.error e
        | Except.ok outTok =>
          match parseBN env.amount with
          | Except.error e => Except.error e
          | Except.ok amt =>
            match parseBN env.slippage with
            | Except.error e => Except.error e
            | Except.ok slp =>
              Except.ok (Config.mk pid cfg inTok outTok env.httpUrl amt slp)

/-- Whether the module load phase throws (an uncaught synchronous exception,
terminating the Node process with a non-zero exit code). -/
def startupFails (env : Env) : Bool :=
  match loadConfig env with
  | Except.error _ => true
  | Except.ok _ => false

/-- Modelled from the spec: session setup constructs an RPC connection handle
from the configured endpoint (new Connection).  Construction requires an
endpoint URL starting with http: or https: and performs no network request by
itself. -/
def makeConnection (url : Option String) : Except String Unit :=
  match url with
  | none => Except.error ("Endpoint URL must start with http or https")
  | some u =>
    if u.toList.take 5 = ['h', 't', 't', 'p', ':'] ||
        u.toList.take 6 = ['h', 't', 't', 'p', 's', ':'] then Except.ok ()
    else Except.error ("Endpoint URL must start with http or https")

/-- Modelled from the spec: the pool address produced by the published
derivation rule.  The rule is a one-way deterministic function of the seed
tuple (program id, config id, token mint A, token mint B, tick spacing);
distinct seed tuples yield distinct addresses, so the address is represented
by its seed tuple. -/
structure WhirlpoolPda where
  programId : Address
  whirlpoolsConfig : Address
  tokenMintA : Address
  tokenMintB : Address
  tickSpacing : Nat
deriving DecidableEq, Repr

/-- Modelled from the spec: PDAUtil.getWhirlpool, the deterministic pool
address derivation from program id, config id, the two mints and the tick
spacing.  Purely positional in the two mints; no canonical ordering is
applied; no network access. -/
def getWhirlpool (programId whirlpoolsConfig tokenMintA tokenMintB : Address)
    (tickSpacing : Nat) : WhirlpoolPda :=
  WhirlpoolPda.mk programId whirlpoolsConfig tokenMintA tokenMintB tickSpacing

/-- The pool address main.ts derives: INPUT_TOKEN passed positionally as
token A, OUTPUT_TOKEN as token B, and the hardcoded tick spacing 4. -/
def derivePool (cfg : Config) : WhirlpoolPda :=
  getWhirlpool cfg.programId cfg.whirlpoolConfig cfg.inputToken cfg.outputToken 4

/-- On-chain pool state as decoded by the SDK, restricted to the fields the
script reads. -/
structure PoolData where
  tickCurrentIndex : Int
  tickSpacing : Nat
  tokenMintA : Address
  tokenMintB : Address
  liquidity : Nat
deriving DecidableEq, Repr

/-- Which of the two pool tokens a mint is. -/
inductive TokenType
  | tokenA
  | tokenB
deriving DecidableEq, Repr

/-- The two swap directions. -/
inductive SwapDirection
  | AtoB
  | BtoA
deriving DecidableEq, Repr

/-- Modelled from the spec: classification of a mint against the two mints of
a pool state; token A is checked first, a mint matching neither is none. -/
def getTokenType (pool : PoolData) (mint : Address) : Option TokenType :=
  if pool.tokenMintA = mint then some TokenType.tokenA
  else if pool.tokenMintB = mint then some TokenType.tokenB
  else none

/-- Modelled from the spec: SwapUtils.getSwapDirection.  The direction is A
to B exactly when the swap mint being token A coincides with the flag saying
the swap amount denotes the input; a mint matching neither pool token gives
none. -/
def getSwapDirection (pool : PoolData) (swapTokenMint : Address)
    (swapTokenIsInput : Bool) : Option SwapDirection :=
  match getTokenType pool swapTokenMint with
  | none => none
  | some t =>
    if (decide (t = TokenType.tokenA)) = swapTokenIsInput then some SwapDirection.AtoB
    else some SwapDirection.BtoA

/-- The boolean main.ts computes: whether the resolved direction equals A to
B, with the input mint as swap mint and amountSpecifiedIsInput set to true. -/
def swapIsAtoB (pool : PoolData) (inputMint : Address) : Bool :=
  decide (getSwapDirection pool inputMint true = some SwapDirection.AtoB)

/-- Number of ticks per tick array account. -/
def TICK_ARRAY_SIZE : Nat := 88

/-- Maximum number of tick arrays a swap traverses. -/
def MAX_SWAP_TICK_ARRAYS : Nat := 3

/-- Modelled from the spec: a tick array address is derived deterministically
from the program id, the pool address and the start tick index of the array;
distinct seeds yield distinct addresses, so the address is represented by its
seed tuple. -/
structure TickArrayPda where
  programId : Address
  whirlpool : WhirlpoolPda
  startTickIndex : Int
deriving DecidableEq, Repr

/-- Modelled from the spec: start tick index of the tick array holding a tick
index, shifted by a whole number of arrays. -/
def getStartTickIndex (tickIndex : Int) (tickSpacing : Nat) (offset : Int) : Int :=
  let ticksInArray : Int := (tickSpacing : Int) * (TICK_ARRAY_SIZE : Int)
  let realIndex := if ticksInArray = 0 then 0 else Int.fdiv tickIndex ticksInArray
  (realIndex + offset) * ticksInArray

/-- Modelled from the spec: SwapUtils.getTickArrayPublicKeys, the ordered
tick-array addresses the quote will need, a deterministic function of current
tick index, tick spacing, direction, program id and pool address: the three
consecutive arrays covering the price path, walking down for A to B and up
otherwise. -/
def getTickArrayPublicKeys (tickCurrentIndex : Int) (tickSpacing : Nat)
    (aToB : Bool) (programId : Address) (whirlpool : WhirlpoolPda) :
    List TickArrayPda :=
  let shift : Int := if aToB then 0 else (tickSpacing : Int)
  (List.range MAX_SWAP_TICK_ARRAYS).map (fun (i : Nat) =>
    let offset : Int := if aToB then -(i : Int) else (i : Int)
    TickArrayPda.mk programId whirlpool
      (getStartTickIndex (tickCurrentIndex + shift) tickSpacing offset))

/-- Modelled from the spec: the exact-fraction percentage type of the SDK. -/
structure Percentage where
  numerator : Int
  denominator : Int
deriving DecidableEq, Repr

/-- Modelled from the spec: Percentage.fromFraction builds the exact fraction
numerator over denominator, no rounding. -/
def Percentage.fromFraction (n d : Int) : Percentage :=
  Percentage.mk n d

/-- Modelled from the spec: the quote object returned by the external quote
engine: estimated output amount and further library-defined fields abstracted
as an opaque payload. -/
structure Quote where
  estimatedAmountOut : Nat
  otherFields : Nat
deriving DecidableEq, Repr

/-- The network-dependent operations, supplied as oracles: fetching the pool
account at an address (failing when the account does not exist or the
connection fails) and the external quote engine invoked with the exact
arguments main.ts passes. -/
structure Network where
  getPool : WhirlpoolPda → Except String PoolData
  swapQuote : WhirlpoolPda → PoolData → Address → Int → Percentage → Address →
    Except String Quote

/-- One line of console output. -/
inductive LogLine
  | programIdLine (raw : Option String)
  | tickArraysLine (addrs : List TickArrayPda)
  | quoteLine (q : Quote)
  | errorLine (message : String)
deriving DecidableEq, Repr

/-- One network request, with the arguments it carries. -/
inductive NetCall
  | fetchPool (address : WhirlpoolPda)
  | quoteRequest (address : WhirlpoolPda) (inputMint : Address) (amount : Int)
      (slippageTolerance : Percentage) (programId : Address)
deriving DecidableEq, Repr

/-- Result of the async IIFE body: console output, network calls issued, and
the rejection message when the body threw. -/
structure AsyncResult where
  printed : List LogLine
  calls : List NetCall
  failed : Option String
deriving DecidableEq, Repr

/-- The async IIFE body of main.ts, parametric in the tick-array enumeration
so that its influence can be stated.  Steps in source order: generate an
ephemeral keypair (no observable effect), construct the connection, build the
provider and context, log the raw program id variable, derive the pool
address, fetch the pool, resolve the swap direction from the input token,
enumerate and log the tick arrays, then request the quote passing the token A
mint of the fetched pool, the configured amount, the slippage fraction over
100 and the context program id, and log the quote. -/
def asyncMain
    (tickFn : Int → Nat → Bool → Address → WhirlpoolPda → List TickArrayPda)
    (env : Env) (cfg : Config) (net : Network) : AsyncResult :=
  match makeConnection cfg.httpUrl with
  | Except.error e => AsyncResult.mk [] [] (some e)
  | Except.ok _ =>
    let lineProgram := LogLine.programIdLine env.whirlpoolProgramId
    let pda := derivePool cfg
    match net.getPool pda with
    | Except.error e =>
      AsyncResult.mk [lineProgram] [NetCall.fetchPool pda] (some e)
    | Except.ok data =>
      let aToB := swapIsAtoB data cfg.inputToken
      let tickArrays := tickFn data.tickCurrentIndex data.tickSpacing aToB
        cfg.programId pda
      let lineTicks := LogLine.tickArraysLine tickArrays
      let slip := Percentage.fromFraction cfg.slippage 100
      let quoteCall := NetCall.quoteRequest pda data.tokenMintA cfg.amount slip
        cfg.programId
      match net.swapQuote pda data data.tokenMintA cfg.amount slip cfg.programId with
      | Except.error e =>
        AsyncResult.mk [lineProgram, lineTicks]
          [NetCall.fetchPool pda, quoteCall] (some e)
      | Except.ok q =>
        AsyncResult.mk [lineProgram, lineTicks, LogLine.quoteLine q]
          [NetCall.fetchPool pda, quoteCall] none

/-- Observable outcome of one process run: console output, network calls, and
the process exit code. -/
structure Outcome where
  printed : List LogLine
  calls : List NetCall
  exitCode : Nat
deriving DecidableEq, Repr

/-- One full process run, parametric in the tick-array enumeration.  A throw
at module load is an uncaught synchronous exception: Node prints it and exits
with code 1.  A rejection of the async body is handled by the final
.catch(console.error): the error is printed and the process exits normally
with code 0. -/
def runProcessWith
    (tickFn : Int → Nat → Bool → Address → WhirlpoolPda → List TickArrayPda)
    (env : Env) (net : Network) : Outcome :=
  match loadConfig env with
  | Except.error e => Outcome.mk [LogLine.errorLine e] [] 1
  | Except.ok cfg =>
    let r := asyncMain tickFn env cfg net
    match r.failed with
    | some e => Outcome.mk (r.printed ++ [LogLine.errorLine e]) r.calls 0
    | none => Outcome.mk r.printed r.calls 0

/-- One full process run of main.ts. -/
def runProcess (env : Env) (net : Network) : Outcome :=
  runProcessWith getTickArrayPublicKeys env net

/-- Whether a run fails: the module load throws, or the async body rejects. -/
def runFailed (env : Env) (net : Network) : Bool :=
  match loadConfig env with
  | Except.error _ => true
  | Except.ok cfg => (asyncMain getTickArrayPublicKeys env cfg net).failed.isSome

/-- Whether an error line was printed. -/
def hasErrorLine (o : Outcome) : Bool :=
  o.printed.any (fun l => match l with
    | LogLine.errorLine _ => true
    | _ => false)

/-- Whether a quote line was printed. -/
def hasQuoteLine (o : Outcome) : Bool :=
  o.printed.any (fun l => match l with
    | LogLine.quoteLine _ => true
    | _ => false)

/-- The quote lines printed by a run, in order. -/
def quoteLines (o : Outcome) : List Quote :=
  o.printed.filterMap (fun l => match l with
    | LogLine.quoteLine q => some q
    | _ => none)

/-- The input mints of the quote requests a run issued, in order. -/
def quoteCallMints (o : Outcome) : List Address :=
  o.calls.filterMap (fun c => match c with
    | NetCall.quoteRequest _ m _ _ _ => some m
    | _ => none)

/-- The (amount, slippage) arguments of the quote requests a run issued. -/
def quoteCallAmountSlippage (o : Outcome) : List (Int × Percentage) :=
  o.calls.filterMap (fun c => match c with
    | NetCall.quoteRequest _ _ a s _ => some (a, s)
    | _ => none)

/-- Whether an Except value is a success. -/
def exceptIsOk {α : Type} : Except String α → Bool
  | Except.ok _ => true
  | Except.error _ => false

/-- A 32-character base58 string: the zero address. -/
def pidStr : String := "11111111111111111111111111111112"

/-- A concrete valid address string. -/
def cfgStr : String := "11111111111111111111111111111113"

/-- A concrete valid address string. -/
def inStr : String := "11111111111111111111111111111114"

/-- A concrete valid address string. -/
def outStr : String := "11111111111111111111111111111115"

/-- A fully valid environment. -/
def envOk : Env :=
  Env.mk (some pidStr) (some cfgStr) (some inStr) (some outStr)
    (some ("http://localhost:8899")) (some ("1000")) (some ("5"))

/-- The configuration envOk loads to. -/
def cfgOk : Config :=
  Config.mk (Address.mk 1) (Address.mk 2) (Address.mk 3) (Address.mk 4)
    (some ("http://localhost:8899")) 1000 5

/-- envOk with the HTTP_URL variable absent. -/
def envNoUrl : Env :=
  Env.mk (some pidStr) (some cfgStr) (some inStr) (some outStr)
    none (some ("1000")) (some ("5"))

/-- envOk with a non-numeric AMOUNT. -/
def envBadAmount : Env :=
  Env.mk (some pidStr) (some cfgStr) (some inStr) (some outStr)
    (some ("http://localhost:8899")) (some ("abc")) (some ("5"))

/-- An environment with every variable absent. -/
def envAllNone : Env :=
  Env.mk none none none none none none none

/-- A network on which the derived pool account does not exist. -/
def netMissingPool : Network :=
  Network.mk (fun _ => Except.error ("Unable to fetch Whirlpool"))
    (fun _ _ _ _ _ _ => Except.error ("unreachable"))

/-- A pool state whose token A mint differs from the configured input token of
envOk (decoded input token has value 3; this pool has token A value 9 and
token B value 3). -/
def poolDataMismatch : PoolData :=
  PoolData.mk 100 4 (Address.mk 9) (Address.mk 3) 1000

/-- A network returning poolDataMismatch and a successful quote. -/
def netMismatch : Network :=
  Network.mk (fun _ => Except.ok poolDataMismatch)
    (fun _ _ _ _ _ _ => Except.ok (Quote.mk 42 0))

/-- A pool state with token A value 3 and token B value 4. -/
def poolAB : PoolData :=
  PoolData.mk 0 4 (Address.mk 3) (Address.mk 4) 100

lemma parsePublicKey_some_isOk (s : String) :
    exceptIsOk (parsePublicKey (some s)) = isValidAddressString s := by
  unfold parsePublicKey isValidAddressString
  cases h : base58Decode s with
  | none => simp only [h]; rfl
  | some p =>
    obtain ⟨l, v⟩ := p
    simp only [h]
    by_cases hc : l + byteLength v = 32
    · simp [hc, exceptIsOk]
    · simp [hc, exceptIsOk]

lemma parseBN_some_isOk (s : String) :
    exceptIsOk (parseBN (some s)) = isNumericString s := by
  unfold parseBN isNumericString
  cases h : s.toList.filter (fun c => !isSpaceChar c) with
  | nil => simp only [h]; rfl
  | cons c rest =>
    simp only [h]
    by_cases hm : c = '-'
    · by_cases hd : rest.all Char.isDigit <;> simp [hm, hd, exceptIsOk]
    · by_cases hd : (c :: rest).all Char.isDigit <;> simp [hm, hd, exceptIsOk]

lemma loadConfig_error_cases (env : Env)
    (h : exceptIsOk (parsePublicKey env.whirlpoolProgramId) = false ∨
         exceptIsOk (parsePublicKey env.whirlpoolConfig) = false ∨
         exceptIsOk (parsePublicKey env.inputToken) = false ∨
         exceptIsOk (parsePublicKey env.outputToken) = false ∨
         exceptIsOk (parseBN env.amount) = false ∨
         exceptIsOk (parseBN env.slippage) = false) :
    startupFails env = true := by
  unfold startupFails loadConfig
  cases h1 : parsePublicKey env.whirlpoolProgramId with
  | error e => simp
  | ok pid =>
    simp only [h1, exceptIsOk, Bool.true_eq_false, false_or] at h
    cases h2 : parsePublicKey env.whirlpoolConfig with
    | error e => simp
    | ok cfgA =>
      simp only [h2, exceptIsOk, Bool.true_eq_false, false_or] at h
      cases h3 : parsePublicKey env.inputToken with
      | error e => simp
      | ok inTok =>
        simp only [h3, exceptIsOk, Bool.true_eq_false, false_or] at h
        cases h4 : parsePublicKey env.outputToken with
        | error e => simp
        | ok outTok =>
          simp only [h4, exceptIsOk, Bool.true_eq_false, false_or] at h
          cases h5 : parseBN env.amount with
          | error e => simp
          | ok amt =>
            simp only [h5, exceptIsOk, Bool.true_eq_false, false_or] at h
            cases h6 : parseBN env.slippage with
            | error e => simp
            | ok slp => simp only [h6, exceptIsOk, Bool.true_eq_false] at h

lemma runProcess_startup_error (env : Env) (net : Network)
    (h : startupFails env = true) :
    (runProcess env net).calls = [] ∧ (runProcess env net).exitCode = 1 ∧
    hasErrorLine (runProcess env net) = true ∧
    hasQuoteLine (runProcess env net) = false := by
  unfold startupFails at h
  unfold runProcess runProcessWith
  cases hl : loadConfig env with
  | error e => simp [hasErrorLine, hasQuoteLine]
  | ok cfg => rw [hl] at h; exact absurd h (by simp)

lemma loadConfig_fields (env : Env) (cfg : Config)
    (h : loadConfig env = Except.ok cfg) :
    parsePublicKey env.whirlpoolProgramId = Except.ok cfg.programId ∧
    parsePublicKey env.whirlpoolConfig = Except.ok cfg.whirlpoolConfig ∧
    parsePublicKey env.inputToken = Except.ok cfg.inputToken ∧
    parsePublicKey env.outputToken = Except.ok cfg.outputToken ∧
    parseBN env.amount = Except.ok cfg.amount ∧
    parseBN env.slippage = Except.ok cfg.slippage ∧
    cfg.httpUrl = env.httpUrl := by
  unfold loadConfig at h
  repeat' split at h
  all_goals cases h
  simp_all

/-- C5: for any two runs with the same valid values of WHIRLPOOL_PROGRAM_ID,
WHIRLPOOL_CONFIG, INPUT_TOKEN and OUTPUT_TOKEN, the derived pool address is
identical: it is a pure deterministic function of program id, config id, the
two mints and the fixed tick-spacing constant 4, with no network dependence
(derivePool consumes only the configuration, never a Network oracle). -/
theorem C5_pool_derivation_deterministic (c1 c2 : Config)
    (h1 : c1.programId = c2.programId)
    (h2 : c1.whirlpoolConfig = c2.whirlpoolConfig)
    (h3 : c1.inputToken = c2.inputToken)
    (h4 : c1.outputToken = c2.outputToken) :
    derivePool c1 = derivePool c2 ∧
    derivePool c1 =
      getWhirlpool c1.programId c1.whirlpoolConfig c1.inputToken c1.outputToken 4 := by
  unfold derivePool getWhirlpool
  rw [h1, h2, h3, h4]
  exact ⟨rfl, rfl⟩

/-- A configuration agreeing with cfgOk on the four addresses but differing in
endpoint, amount and slippage. -/
def cfgOkAlt : Config :=
  Config.mk (Address.mk 1) (Address.mk 2) (Address.mk 3) (Address.mk 4) none 7 9

/-- Witness for C5 at two concrete configurations. -/
theorem C5_pool_derivation_deterministic_witness :
    derivePool cfgOk = derivePool cfgOkAlt ∧
    derivePool cfgOk =
      getWhirlpool cfgOk.programId cfgOk.whirlpoolConfig cfgOk.inputToken
        cfgOk.outputToken 4 :=
  C5_pool_derivation_deterministic cfgOk cfgOkAlt rfl rfl rfl rfl

/-- C6: for every fetched pool state (whose two token mints are distinct, as
for any tradeable pair), if the configured input token mint equals the token A
mint of the pool then the computed swap-direction boolean is true (A to B),
and if it equals the token B mint the direction resolves to B to A and the
boolean is false. -/
theorem C6_swap_direction (pool : PoolData) (inputMint : Address)
    (h : pool.tokenMintA ≠ pool.tokenMintB) :
    (inputMint = pool.tokenMintA → swapIsAtoB pool inputMint = true) ∧
    (inputMint = pool.tokenMintB →
      getSwapDirection pool inputMint true = some SwapDirection.BtoA ∧
      swapIsAtoB pool inputMint = false) := by
  constructor
  · intro hA
    subst hA
    unfold swapIsAtoB getSwapDirection getTokenType
    simp
  · intro hB
    subst hB
    unfold swapIsAtoB getSwapDirection getTokenType
    simp [h]

/-- Witness for C6 at a concrete pool state, in both directions. -/
theorem C6_swap_direction_witness :
    swapIsAtoB poolAB (Address.mk 3) = true ∧
    swapIsAtoB poolAB (Address.mk 4) = false :=
  ⟨(C6_swap_direction poolAB (Address.mk 3) (by decide)).1 rfl,
   ((C6_swap_direction poolAB (Address.mk 4) (by decide)).2 rfl).2⟩

/-- C7: for every (tick index, tick spacing, direction, program id, pool
address) tuple the computed tick-array address sequence is non-empty (always
exactly MAX_SWAP_TICK_ARRAYS entries); it is produced by a pure function of
exactly that tuple, hence deterministic across runs. -/
theorem C7_tick_arrays_nonempty (tickCurrentIndex : Int) (tickSpacing : Nat)
    (aToB : Bool) (programId : Address) (whirlpool : WhirlpoolPda) :
    (getTickArrayPublicKeys tickCurrentIndex tickSpacing aToB programId
        whirlpool).length = MAX_SWAP_TICK_ARRAYS ∧
    getTickArrayPublicKeys tickCurrentIndex tickSpacing aToB programId
        whirlpool ≠ [] := by
  unfold getTickArrayPublicKeys
  constructor
  · simp
  · intro hnil
    have hlen := congrArg List.length hnil
    simp [MAX_SWAP_TICK_ARRAYS] at hlen

/-- C10: the pool derivation as invoked is not symmetric in the two configured
mints: INPUT_TOKEN is always passed positionally as token A and OUTPUT_TOKEN
as token B with no canonical ordering applied, and there exist mint pairs for
which exchanging the two values yields a different derived pool address. -/
theorem C10_pda_not_symmetric :
    (∀ cfg : Config, derivePool cfg =
      getWhirlpool cfg.programId cfg.whirlpoolConfig cfg.inputToken
        cfg.outputToken 4) ∧
    (∃ programId whirlpoolsConfig mintA mintB : Address, mintA ≠ mintB ∧
      getWhirlpool programId whirlpoolsConfig mintA mintB 4 ≠
        getWhirlpool programId whirlpoolsConfig mintB mintA 4) := by
  constructor
  · intro cfg
    rfl
  · exact ⟨Address.mk 1, Address.mk 2, Address.mk 3, Address.mk 4,
      by decide, by decide⟩

/-- C9: the tick-array list is informational output only: it is printed but
never passed to the quote computation, so two runs differing only in the
tick-array enumeration produce the same printed quotes, the same network
calls and the same exit code. -/
theorem C9_tick_arrays_noninterference
    (f g : Int → Nat → Bool → Address → WhirlpoolPda → List TickArrayPda)
    (env : Env) (net : Network) :
    quoteLines (runProcessWith f env net) = quoteLines (runProcessWith g env net) ∧
    (runProcessWith f env net).calls = (runProcessWith g env net).calls ∧
    (runProcessWith f env net).exitCode = (runProcessWith g env net).exitCode := by
  unfold runProcessWith
  cases hl : loadConfig env with
  | error e => exact ⟨rfl, rfl, rfl⟩
  | ok cfg =>
    simp only [hl]
    unfold asyncMain
    cases hc : makeConnection cfg.httpUrl with
    | error e => simp [hc]
    | ok u =>
      simp only [hc]
      cases hp : net.getPool (derivePool cfg) with
      | error e => simp [hp, quoteLines]
      | ok data =>
        simp only [hp]
        cases hq : net.swapQuote (derivePool cfg) data data.tokenMintA cfg.amount
            (Percentage.fromFraction cfg.slippage 100) cfg.programId with
        | error e => simp [hq, quoteLines]
        | ok q => simp [hq, quoteLines]

/-- C2 counterexample: a concrete run on which the claim fails.  The
configured INPUT_TOKEN decodes to the address of value 3, but the fetched pool
state stores the address of value 9 as its token A mint, and the input mint
passed to the quote computation is that token A mint, not INPUT_TOKEN. -/
theorem C2_counterexample :
    loadConfig envOk = Except.ok cfgOk ∧
    cfgOk.inputToken = Address.mk 3 ∧
    quoteCallMints (runProcess envOk netMismatch) = [Address.mk 9] ∧
    Address.mk 9 ≠ Address.mk 3 :=
  ⟨rfl, rfl, by decide, by decide⟩

/-- C2 amended: the input mint passed to the quote computation is the token A
mint of the fetched pool state (so it equals the configured INPUT_TOKEN
exactly when the fetched pool stores INPUT_TOKEN as token A), and the amount
passed is the configured AMOUNT. -/
theorem C2_quote_arguments (env : Env) (cfg : Config) (net : Network)
    (data : PoolData)
    (hl : loadConfig env = Except.ok cfg)
    (hp : net.getPool (derivePool cfg) = Except.ok data) :
    (∀ m ∈ quoteCallMints (runProcess env net),
      m = data.tokenMintA ∧ (data.tokenMintA = cfg.inputToken → m = cfg.inputToken)) ∧
    (∀ p ∈ quoteCallAmountSlippage (runProcess env net), p.1 = cfg.amount) := by
  unfold runProcess runProcessWith
  simp only [hl]
  unfold asyncMain
  cases hc : makeConnection cfg.httpUrl with
  | error e => simp [quoteCallMints, quoteCallAmountSlippage]
  | ok u =>
    simp only [hc, hp]
    cases hq : net.swapQuote (derivePool cfg) data data.tokenMintA cfg.amount
        (Percentage.fromFraction cfg.slippage 100) cfg.programId with
    | error e => simp [hq, quoteCallMints, quoteCallAmountSlippage]
    | ok q => simp [hq, quoteCallMints, quoteCallAmountSlippage]

/-- Witness for C2 amended at a concrete run whose quote call carries the
token A mint of the fetched pool. -/
theorem C2_quote_arguments_witness :
    (∀ m ∈ quoteCallMints (runProcess envOk netMismatch),
      m = poolDataMismatch.tokenMintA ∧
      (poolDataMismatch.tokenMintA = cfgOk.inputToken → m = cfgOk.inputToken)) ∧
    (∀ p ∈ quoteCallAmountSlippage (runProcess envOk netMismatch),
      p.1 = cfgOk.amount) :=
  C2_quote_arguments envOk cfgOk netMismatch poolDataMismatch rfl rfl

/-- C8: the slippage tolerance passed to the quote computation is exactly the
fraction with the configured SLIPPAGE as numerator and 100 as denominator, no
rounding. -/
theorem C8_slippage_fraction (env : Env) (cfg : Config) (net : Network)
    (hl : loadConfig env = Except.ok cfg) :
    parseBN env.slippage = Except.ok cfg.slippage ∧
    ∀ p ∈ quoteCallAmountSlippage (runProcess env net),
      p.2.numerator = cfg.slippage ∧ p.2.denominator = 100 := by
  refine ⟨(loadConfig_fields env cfg hl).2.2.2.2.2.1, ?_⟩
  unfold runProcess runProcessWith
  simp only [hl]
  unfold asyncMain
  cases hc : makeConnection cfg.httpUrl with
  | error e => simp [quoteCallAmountSlippage]
  | ok u =>
    simp only [hc]
    cases hp : net.getPool (derivePool cfg) with
    | error e => simp [hp, quoteCallAmountSlippage]
    | ok data =>
      simp only [hp]
      cases hq : net.swapQuote (derivePool cfg) data data.tokenMintA cfg.amount
          (Percentage.fromFraction cfg.slippage 100) cfg.programId with
      | error e => simp [hq, quoteCallAmountSlippage, Percentage.fromFraction]
      | ok q => simp [hq, quoteCallAmountSlippage, Percentage.fromFraction]

/-- Witness for C8 at a concrete run issuing one quote call. -/
theorem C8_slippage_fraction_witness :
    parseBN envOk.slippage = Except.ok cfgOk.slippage ∧
    ∀ p ∈ quoteCallAmountSlippage (runProcess envOk netMismatch),
      p.2.numerator = cfgOk.slippage ∧ p.2.denominator = 100 :=
  C8_slippage_fraction envOk cfgOk netMismatch rfl

/-- C4: setting AMOUNT or SLIPPAGE to a non-numeric string, or any of the four
address variables to a syntactically invalid address, makes the process fail
at module load with a non-zero exit code, before any network call is
attempted (the network call trace is empty) and with no quote printed. -/
theorem C4_invalid_values (env : Env) (net : Network)
    (h : (∃ s, env.amount = some s ∧ isNumericString s = false) ∨
         (∃ s, env.slippage = some s ∧ isNumericString s = false) ∨
         (∃ s, env.whirlpoolProgramId = some s ∧ isValidAddressString s = false) ∨
         (∃ s, env.whirlpoolConfig = some s ∧ isValidAddressString s = false) ∨
         (∃ s, env.inputToken = some s ∧ isValidAddressString s = false) ∨
         (∃ s, env.outputToken = some s ∧ isValidAddressString s = false)) :
    (runProcess env net).calls = [] ∧ (runProcess env net).exitCode = 1 ∧
    hasErrorLine (runProcess env net) = true ∧
    hasQuoteLine (runProcess env net) = false := by
  apply runProcess_startup_error
  apply loadConfig_error_cases
  rcases h with ⟨s, h1, h2⟩ | ⟨s, h1, h2⟩ | ⟨s, h1, h2⟩ | ⟨s, h1, h2⟩ |
    ⟨s, h1, h2⟩ | ⟨s, h1, h2⟩
  · exact Or.inr (Or.inr (Or.inr (Or.inr (Or.inl
      (by rw [h1, parseBN_some_isOk, h2])))))
  · exact Or.inr (Or.inr (Or.inr (Or.inr (Or.inr
      (by rw [h1, parseBN_some_isOk, h2])))))
  · exact Or.inl (by rw [h1, parsePublicKey_some_isOk, h2])
  · exact Or.inr (Or.inl (by rw [h1, parsePublicKey_some_isOk, h2]))
  · exact Or.inr (Or.inr (Or.inl (by rw [h1, parsePublicKey_some_isOk, h2])))
  · exact Or.inr (Or.inr (Or.inr (Or.inl
      (by rw [h1, parsePublicKey_some_isOk, h2]))))

/-- Witness for C4 at a concrete environment whose AMOUNT is non-numeric. -/
theorem C4_invalid_values_witness :
    (runProcess envBadAmount netMissingPool).calls = [] ∧
    (runProcess envBadAmount netMissingPool).exitCode = 1 ∧
    hasErrorLine (runProcess envBadAmount netMissingPool) = true ∧
    hasQuoteLine (runProcess envBadAmount netMissingPool) = false :=
  C4_invalid_values envBadAmount netMissingPool
    (Or.inl ⟨("abc"), rfl, by decide⟩)

/-- C3 counterexample: with every variable valid except HTTP_URL absent, the
module load phase (startup) succeeds, and the eventual failure inside the
async flow is caught and the process exits with code 0, so absence of
HTTP_URL is not a fatal startup error. -/
theorem C3_counterexample :
    envNoUrl.httpUrl = none ∧
    startupFails envNoUrl = false ∧
    (runProcess envNoUrl netMissingPool).exitCode = 0 ∧
    hasErrorLine (runProcess envNoUrl netMissingPool) = true :=
  ⟨rfl, by decide, by decide, by decide⟩

/-- C3 amended: absence of any of the six variables parsed at module load
(WHIRLPOOL_PROGRAM_ID, WHIRLPOOL_CONFIG, INPUT_TOKEN, OUTPUT_TOKEN, AMOUNT,
SLIPPAGE) is a fatal startup error: the load throws, the process exits with
code 1 and no network call is attempted.  Absence of HTTP_URL is not detected
at module load; the run still fails before any network call, with the error
printed and no quote, but when the load succeeded the handled rejection makes
the process exit with code 0. -/
theorem C3_missing_env (env : Env) (net : Network) :
    ((env.whirlpoolProgramId = none ∨ env.whirlpoolConfig = none ∨
      env.inputToken = none ∨ env.outputToken = none ∨
      env.amount = none ∨ env.slippage = none) →
      startupFails env = true ∧ (runProcess env net).calls = [] ∧
      (runProcess env net).exitCode = 1) ∧
    (env.httpUrl = none →
      (runProcess env net).calls = [] ∧
      hasErrorLine (runProcess env net) = true ∧
      hasQuoteLine (runProcess env net) = false ∧
      (startupFails env = false → (runProcess env net).exitCode = 0)) := by
  constructor
  · intro h
    have hs : startupFails env = true := by
      apply loadConfig_error_cases
      rcases h with h1 | h1 | h1 | h1 | h1 | h1
      · exact Or.inl (by rw [h1]; rfl)
      · exact Or.inr (Or.inl (by rw [h1]; rfl))
      · exact Or.inr (Or.inr (Or.inl (by rw [h1]; rfl)))
      · exact Or.inr (Or.inr (Or.inr (Or.inl (by rw [h1]; rfl))))
      · exact Or.inr (Or.inr (Or.inr (Or.inr (Or.inl (by rw [h1]; rfl)))))
      · exact Or.inr (Or.inr (Or.inr (Or.inr (Or.inr (by rw [h1]; rfl)))))
    have hr := runProcess_startup_error env net hs
    exact ⟨hs, hr.1, hr.2.1⟩
  · intro hu
    cases hl : loadConfig env with
    | error e =>
      unfold runProcess runProcessWith startupFails
      simp [hl, hasErrorLine, hasQuoteLine]
    | ok cfg =>
      have hcu : cfg.httpUrl = none := by
        rw [(loadConfig_fields env cfg hl).2.2.2.2.2.2, hu]
      unfold runProcess runProcessWith startupFails
      simp only [hl]
      unfold asyncMain
      simp [hcu, makeConnection, hasErrorLine, hasQuoteLine]

/-- Witness for C3 amended at the environment with every variable absent. -/
theorem C3_missing_env_witness :
    (startupFails envAllNone = true ∧
     (runProcess envAllNone netMissingPool).calls = [] ∧
     (runProcess envAllNone netMissingPool).exitCode = 1) ∧
    ((runProcess envAllNone netMissingPool).calls = [] ∧
     hasErrorLine (runProcess envAllNone netMissingPool) = true ∧
     hasQuoteLine (runProcess envAllNone netMissingPool) = false ∧
     (startupFails envAllNone = false →
       (runProcess envAllNone netMissingPool).exitCode = 0)) :=
  ⟨(C3_missing_env envAllNone netMissingPool).1 (Or.inl rfl),
   (C3_missing_env envAllNone netMissingPool).2 rfl⟩

/-- C1 counterexample: a concrete run in which the derived pool account does
not exist.  The error is printed and no quote is printed, but the rejection
is handled by the final catch, so the process exits with code 0, not a
non-zero code as the claim states. -/
theorem C1_counterexample :
    runFailed envOk netMissingPool = true ∧
    hasErrorLine (runProcess envOk netMissingPool) = true ∧
    hasQuoteLine (runProcess envOk netMissingPool) = false ∧
    (runProcess envOk netMissingPool).exitCode = 0 :=
  ⟨by decide, by decide, by decide, by decide⟩

/-- C1 amended: every failing run prints the error and prints no quote; the
exit code is 1 exactly when the failure is the module load throwing, while a
failure inside the async flow is caught by the final catch and the process
exits with code 0. -/
theorem C1_failing_runs (env : Env) (net : Network)
    (h : runFailed env net = true) :
    hasErrorLine (runProcess env net) = true ∧
    hasQuoteLine (runProcess env net) = false ∧
    (runProcess env net).exitCode = (if startupFails env = true then 1 else 0) := by
  unfold runFailed at h
  unfold runProcess runProcessWith startupFails
  cases hl : loadConfig env with
  | error e => simp [hasErrorLine, hasQuoteLine]
  | ok cfg =>
    simp only [hl] at h
    simp only [hl]
    unfold asyncMain at h ⊢
    cases hc : makeConnection cfg.httpUrl with
    | error e => simp [hc, hasErrorLine, hasQuoteLine]
    | ok u =>
      simp only [hc] at h ⊢
      cases hp : net.getPool (derivePool cfg) with
      | error e => simp [hp, hasErrorLine, hasQuoteLine]
      | ok data =>
        simp only [hp] at h ⊢
        cases hq : net.swapQuote (derivePool cfg) data data.tokenMintA cfg.amount
            (Percentage.fromFraction cfg.slippage 100) cfg.programId with
        | error e => simp [hq, hasErrorLine, hasQuoteLine]
        | ok q => simp [hq] at h

/-- Witness for C1 amended at a concrete failing run (no endpoint URL). -/
theorem C1_failing_runs_witness :
    hasErrorLine (runProcess envNoUrl netMismatch) = true ∧
    hasQuoteLine (runProcess envNoUrl netMismatch) = false ∧
    (runProcess envNoUrl netMismatch).exitCode =
      (if startupFails envNoUrl = true then 1 else 0) :=
  C1_failing_runs envNoUrl netMismatch (by decide)
